import Mathlib

/-!
Shallow embedding of the `computerwWwizards` dependency-injection containers
(`src/packages/dependency-injection`) and the observable store
(`src/packages/observers`), together with theorems settling the spec claims.

Modelling conventions:
* JavaScript runtime values are `JSValue` (undefined, null, booleans, integers,
  strings, and opaque object references).  Truthiness and nullishness follow
  the JS rules used by the source (`!x`, `x ?? y`, `x ??= y`).
* A container's registry (a JS `Map`) is an insertion-ordered association list
  with `Map` semantics (`mapFind`/`mapSet`/`mapDelete`).
* Provider callbacks are identified by a numeric id; an environment
  `Env : Nat → PrimitiveContainer → Except DIError JSValue` gives each id its
  behaviour as a pure function of the container state passed as `ctx`
  (a thrown JS error is `Except.error`).  This avoids storing functions
  inside the state while keeping providers arbitrary.
* Mutating methods are state transformers; `get` additionally reports whether
  the identifier's own provider was invoked during the call, so that
  invocation-counting claims are expressible.
-/

namespace DI

/-- Runtime JavaScript values relevant to the containers. -/
inductive JSValue where
  | undef
  | null
  | bool (b : Bool)
  | num (n : Int)
  | str (s : String)
  | obj (ref : Nat)
deriving DecidableEq, Repr

/-- JS nullishness: exactly `undefined` and `null` (the `??` / `??=` test). -/
def JSValue.isNullish : JSValue → Bool
  | .undef => true
  | .null => true
  | _ => false

/-- JS truthiness (the `!x` test in the source). -/
def JSValue.truthy : JSValue → Bool
  | .undef => false
  | .null => false
  | .bool b => b
  | .num n => n != 0
  | .str s => !s.isEmpty
  | .obj _ => true

/-- Identifiers: the source allows string | symbol | number keys; strings
suffice for the claims. -/
abbrev Ident := String

/-- Binding scopes, from `types.ts` (`Scope = 'singleton' | 'transient'`). -/
inductive Scope where
  | singleton
  | transient
deriving DecidableEq, Repr

/-- Errors thrown by the containers.  Both not-found errors carry the
offending identifier, as the `Error` messages in the source interpolate it. -/
inductive DIError where
  | couldNotResolve (id : Ident)
  | notFound (id : Ident)
  | undefinedPluginCall
deriving DecidableEq, Repr

/-- A registry entry: `{provider, scope, reference}` in
`primitive-container.ts`; the provider is referenced by id.  `reference`
starts as JS `undefined`; the `??=` cache test checks nullishness. -/
structure Binding where
  providerId : Nat
  scope : Scope
  reference : JSValue
deriving DecidableEq, Repr

/-- `Map.get`. -/
def mapFind {α : Type} : List (Ident × α) → Ident → Option α
  | [], _ => none
  | p :: m, k => if p.1 == k then some p.2 else mapFind m k

/-- `Map.set`: replaces in place when the key exists (JS `Map` keeps the
original insertion position), otherwise appends. -/
def mapSet {α : Type} : List (Ident × α) → Ident → α → List (Ident × α)
  | [], k, v => [(k, v)]
  | p :: m, k, v => if p.1 == k then (k, v) :: m else p :: mapSet m k v

/-- `Map.delete`. -/
def mapDelete {α : Type} : List (Ident × α) → Ident → List (Ident × α)
  | [], _ => []
  | p :: m, k => if p.1 == k then m else p :: mapDelete m k

/-- State of a `PrimitiveContainer`: its exclusively-owned registry. -/
structure PrimitiveContainer where
  registry : List (Ident × Binding) := []
deriving DecidableEq, Repr

/-- Provider environment: the behaviour of each provider id, as a function of
the container passed as context. -/
abbrev Env := Nat → PrimitiveContainer → Except DIError JSValue

/-- `PrimitiveContainer.bindTo(identifier, provider, scope = 'transient')`:
stores `{provider, reference: undefined, scope}` under the identifier. -/
def PrimitiveContainer.bindTo (c : PrimitiveContainer) (id : Ident)
    (providerId : Nat) (scope : Scope := Scope.transient) : PrimitiveContainer :=
  { c with registry := mapSet c.registry id ⟨providerId, scope, JSValue.undef⟩ }

/-- `PrimitiveContainer.get(identifier, doNotThrowIIfNull?)`.

Returns (result-or-thrown-error, updated container, whether this
identifier's own provider was invoked).  Mirrors the source: throw only when
no binding exists and the flag is unset; for a singleton binding,
`reference ??= provider(this)` caches the provider's result when the current
`reference` is nullish; for a transient binding the provider runs every
call. -/
def PrimitiveContainer.get (env : Env) (c : PrimitiveContainer) (id : Ident)
    (doNotThrowIfNull : Bool := false) :
    Except DIError JSValue × PrimitiveContainer × Bool :=
  match mapFind c.registry id with
  | none =>
      if doNotThrowIfNull then (Except.ok JSValue.undef, c, false)
      else (Except.error (DIError.couldNotResolve id), c, false)
  | some b =>
      match b.scope with
      | Scope.singleton =>
          if b.reference.isNullish then
            match env b.providerId c with
            | Except.error e => (Except.error e, c, true)
            | Except.ok v =>
                (Except.ok v,
                 { c with registry := mapSet c.registry id { b with reference := v } },
                 true)
          else (Except.ok b.reference, c, false)
      | Scope.transient =>
          match env b.providerId c with
          | Except.error e => (Except.error e, c, true)
          | Except.ok v => (Except.ok v, c, true)

/-- `PrimitiveContainer.unbind(identifier)`: deletes the registry entry. -/
def PrimitiveContainer.unbind (c : PrimitiveContainer) (id : Ident) :
    PrimitiveContainer :=
  { c with registry := mapDelete c.registry id }

/-- N successive `get(identifier)` calls (default flag), collecting each
call's (result, provider-invoked?) pair and the final container state. -/
def PrimitiveContainer.getN (env : Env) (c : PrimitiveContainer) (id : Ident) :
    Nat → List (Except DIError JSValue × Bool) × PrimitiveContainer
  | 0 => ([], c)
  | Nat.succ n =>
      let r := PrimitiveContainer.get env c id false
      let rest := PrimitiveContainer.getN env r.2.1 id n
      ((r.1, r.2.2) :: rest.1, rest.2)

/-- State of a `ChildPrimitiveContainer`: its own registry (inherited from
`PrimitiveContainer`) plus an optional non-owning parent reference. -/
structure ChildPrimitiveContainer where
  own : PrimitiveContainer := {}
  parent : Option PrimitiveContainer := none
deriving DecidableEq, Repr

/-- `ChildPrimitiveContainer.bindTo` is the inherited method: it mutates only
the child's own registry. -/
def ChildPrimitiveContainer.bindTo (c : ChildPrimitiveContainer) (id : Ident)
    (providerId : Nat) (scope : Scope := Scope.transient) :
    ChildPrimitiveContainer :=
  { c with own := c.own.bindTo id providerId scope }

/-- `ChildPrimitiveContainer.unbind`, likewise inherited. -/
def ChildPrimitiveContainer.unbind (c : ChildPrimitiveContainer) (id : Ident) :
    ChildPrimitiveContainer :=
  { c with own := c.own.unbind id }

/-- `ChildPrimitiveContainer.get(identifier, doNotThrowIIfNull?)`:

`const maybeInstance = super.get(id, true) ?? this.parent?.get(id, true);`
then throws `Not found <id>` when the flag is unset and `maybeInstance` is
falsy, else returns `maybeInstance`.  The parent is consulted (and its
singleton caches possibly updated) only when the child's own resolution is
nullish; a provider exception from either lookup propagates. -/
def ChildPrimitiveContainer.get (env : Env) (c : ChildPrimitiveContainer)
    (id : Ident) (doNotThrowIfNull : Bool := false) :
    Except DIError JSValue × ChildPrimitiveContainer :=
  match PrimitiveContainer.get env c.own id true with
  | (Except.error e, own1, _) => (Except.error e, { c with own := own1 })
  | (Except.ok v1, own1, _) =>
      if v1.isNullish then
        match c.parent with
        | none =>
            -- `undefined ?? undefined` is undefined, which is falsy
            if doNotThrowIfNull then (Except.ok JSValue.undef, ⟨own1, none⟩)
            else (Except.error (DIError.notFound id), ⟨own1, none⟩)
        | some p =>
            match PrimitiveContainer.get env p id true with
            | (Except.error e, p1, _) => (Except.error e, ⟨own1, some p1⟩)
            | (Except.ok v2, p1, _) =>
                if !doNotThrowIfNull && !v2.truthy then
                  (Except.error (DIError.notFound id), ⟨own1, some p1⟩)
                else (Except.ok v2, ⟨own1, some p1⟩)
      else
        if !doNotThrowIfNull && !v1.truthy then
          (Except.error (DIError.notFound id), ⟨own1, c.parent⟩)
        else (Except.ok v1, ⟨own1, c.parent⟩)

/-- The `bind` options of `PreProcessDependencyContainer`
(`BindOptions` in `types.ts`): the dependency-resolution callback receives
`(ctx, meta)` and the provider `(resolvedDeps, ctx, meta)`.  `M` is the
generic resolved-dependency type. -/
structure BindOptions (M : Type) where
  scope : Option Scope := none
  resolveDependencies :
    Option (PrimitiveContainer → JSValue → Except DIError M) := none
  provider : Option M → PrimitiveContainer → JSValue → Except DIError JSValue
  meta : JSValue := JSValue.undef

/-- The plain provider closure constructed inside
`PreProcessDependencyContainer.bind`: invoked with context, it first calls
`resolveDependencies?.(ctx, meta)` (yielding JS `undefined`, here `none`,
when no resolver was supplied) and then returns
`provider(resolvedDependencies, ctx, meta)`. -/
def composedProvider {M : Type} (o : BindOptions M) :
    PrimitiveContainer → Except DIError JSValue :=
  fun ctx =>
    match o.resolveDependencies with
    | some rd => (rd ctx o.meta).bind (fun deps => o.provider (some deps) ctx o.meta)
    | none => o.provider none ctx o.meta

/-- `PreProcessDependencyContainer.bind(identifier, options)`: registers the
composed provider closure (here: the id `providerId`, which the theorems tie
to `composedProvider o` through the environment) via the underlying
`bindTo`, defaulting the scope to `'singleton'`. -/
def PreProcessDependencyContainer.bind {M : Type} (c : PrimitiveContainer)
    (id : Ident) (providerId : Nat) (o : BindOptions M) : PrimitiveContainer :=
  c.bindTo id providerId (o.scope.getD Scope.singleton)

/-- `createAutoResolveDepsInOrder(deps)`: returns a resolver mapping each
`{identifier, dontThrowIfNull}` descriptor to `ctx.get(identifier,
dontThrowIfNull)`, in order; a not-found throw from any `get` propagates.
The extra `meta` argument passed at the call site is ignored (the returned
closure has arity 1 in the source). -/
def createAutoResolveDepsInOrder (env : Env) (deps : List (Ident × Bool)) :
    PrimitiveContainer → JSValue → Except DIError (List JSValue) :=
  fun ctx _meta =>
    deps.mapM (fun d => (PrimitiveContainer.get env ctx d.1 d.2).1)

/-- State of a `BasicContainer` (`basic-container.ts`): the underlying
pre-process container's registry plus the variant-name toggle, the
insertion-ordered pending plugin set, and the tag → plugin index.  Plugins
are referenced by numeric id; a `PluginEnv` gives each id its callbacks. -/
structure BasicContainer where
  core : PrimitiveContainer := {}
  currentSubpluginName : Option String := none
  lazyPlugins : List Nat := []
  pluginsByTag : List (Ident × Nat) := []
deriving DecidableEq, Repr

/-- A plugin: a primary callback, with optional named variant callbacks
attached as properties on the function object. -/
structure PluginDef where
  primary : BasicContainer → BasicContainer
  variants : String → Option (BasicContainer → BasicContainer) := fun _ => none

/-- Plugin environment: the callbacks behind each plugin id. -/
abbrev PluginEnv := Nat → PluginDef

/-- The per-plugin substitution done by the overridden `use`:
`pluginName ? cb[pluginName] ?? cb : cb`.  A set-but-empty variant name is
falsy in JS, so it selects no variant. -/
def selectPluginCallback (penv : PluginEnv) (currentName : Option String)
    (p : Nat) : BasicContainer → BasicContainer :=
  match currentName with
  | some name =>
      if name.isEmpty then (penv p).primary
      else ((penv p).variants name).getD (penv p).primary
  | none => (penv p).primary

/-- `BasicContainer.use(...args)`: captures `currentSubpluginName`, maps each
plugin through the variant substitution, then delegates to the mixin `use`,
which invokes each callback on the container sequentially, in order. -/
def BasicContainer.use (penv : PluginEnv) (c : BasicContainer)
    (plugins : List Nat) : BasicContainer :=
  (plugins.map (selectPluginCallback penv c.currentSubpluginName)).foldl
    (fun s f => f s) c

/-- `useMocks()`: sets the preferred variant name to `"mock"`. -/
def BasicContainer.useMocks (c : BasicContainer) : BasicContainer :=
  { c with currentSubpluginName := some "mock" }

/-- `useSubPlugin(name)`: sets the preferred variant name. -/
def BasicContainer.useSubPlugin (c : BasicContainer) (name : String) :
    BasicContainer :=
  { c with currentSubpluginName := some name }

/-- JS `Set.add` on an insertion-ordered set of plugin ids: re-adding an
existing element leaves the set (and its order) unchanged. -/
def setAdd (l : List Nat) (x : Nat) : List Nat :=
  if x ∈ l then l else l ++ [x]

/-- `registerPlugin(plugin, tags?)`: adds the plugin to the pending set and
indexes it under each given tag (later registrations overwrite a tag). -/
def BasicContainer.registerPlugin (c : BasicContainer) (p : Nat)
    (tags : List String := []) : BasicContainer :=
  { c with
    lazyPlugins := setAdd c.lazyPlugins p,
    pluginsByTag := tags.foldl (fun m t => mapSet m t p) c.pluginsByTag }

/-- `applyPlugins(tags?)`: with tags, resolves each tag through the index and
applies exactly those plugins in tag order via `use`; without tags, applies
every pending plugin in registration order.  The source reads the index with
a non-null assertion (`this.pluginsByTag.get(tag)!`), so an unregistered tag
yields an undefined callback whose invocation throws a `TypeError`; that
failure is modelled as `DIError.undefinedPluginCall`. -/
def BasicContainer.applyPlugins (penv : PluginEnv) (c : BasicContainer)
    (tags : Option (List String) := none) : Except DIError BasicContainer :=
  match tags with
  | some ts =>
      match ts.mapM (fun t => mapFind c.pluginsByTag t) with
      | some plugins => Except.ok (BasicContainer.use penv c plugins)
      | none => Except.error DIError.undefinedPluginCall
  | none => Except.ok (BasicContainer.use penv c c.lazyPlugins)

/-- `BasicContainer.get`: the inherited `PrimitiveContainer.get` acting on
the container's own registry. -/
def BasicContainer.get (env : Env) (c : BasicContainer) (id : Ident)
    (doNotThrowIfNull : Bool := false) :
    Except DIError JSValue × BasicContainer × Bool :=
  let r := PrimitiveContainer.get env c.core id doNotThrowIfNull
  (r.1, { c with core := r.2.1 }, r.2.2)

/-- State of an `ObservableStore` (`observers/src/index.ts`): the current
value and the JS `Set` of listeners, modelled as an insertion-ordered
duplicate-free list of opaque listener ids. -/
structure ObservableStore where
  listeners : List Nat := []
  value : JSValue
deriving DecidableEq, Repr

/-- `new ObservableStore(initialValue)`. -/
def ObservableStore.create (initialValue : JSValue) : ObservableStore :=
  { listeners := [], value := initialValue }

/-- `getValue()`. -/
def ObservableStore.getValue (s : ObservableStore) : JSValue :=
  s.value

/-- `unsubscribe(listener)`: `Set.delete`. -/
def ObservableStore.unsubscribe (s : ObservableStore) (l : Nat) :
    ObservableStore :=
  { s with listeners := s.listeners.erase l }

/-- `subscribe(listener, emitCurrent = false)`: adds the listener to the set,
and immediately invokes it with the current value only when `emitCurrent`
is true.  Returns the updated store and the invocation events
(listener, argument) produced by the call. -/
def ObservableStore.subscribe (s : ObservableStore) (l : Nat)
    (emitCurrent : Bool := false) : ObservableStore × List (Nat × JSValue) :=
  ({ s with listeners := setAdd s.listeners l },
   if emitCurrent then [(l, s.value)] else [])

/-- `subscribeWithCleanup(listener, emitCurrent = false)`: registers exactly
like `subscribe` and returns a cleanup function that unsubscribes that
listener. -/
def ObservableStore.subscribeWithCleanup (s : ObservableStore) (l : Nat)
    (emitCurrent : Bool := false) :
    (ObservableStore × List (Nat × JSValue)) × (ObservableStore → ObservableStore) :=
  (s.subscribe l emitCurrent, fun s2 => s2.unsubscribe l)

/-- `update(updater)`: sets the new value (applying the updater function to
the previous value when a function was passed), then synchronously invokes
every current listener with the new value, in set (= subscription) order.
Returns the updated store and the invocation events. -/
def ObservableStore.update (s : ObservableStore)
    (updater : JSValue ⊕ (JSValue → JSValue)) :
    ObservableStore × List (Nat × JSValue) :=
  let v := match updater with
    | Sum.inl newValue => newValue
    | Sum.inr f => f s.value
  ({ s with value := v }, s.listeners.map (fun l => (l, v)))

/-! ### Helper lemmas -/

theorem mapFind_mapSet_self {α : Type} (m : List (Ident × α)) (k : Ident)
    (v : α) : mapFind (mapSet m k v) k = some v := by
  induction m with
  | nil => simp [mapSet, mapFind]
  | cons p m ih =>
      by_cases h : p.1 = k
      · simp [mapSet, mapFind, h]
      · simp only [mapSet, mapFind, beq_iff_eq, h, if_false, ih]

theorem mapFind_mapSet_ne {α : Type} (m : List (Ident × α)) (k k' : Ident)
    (v : α) (h : k' ≠ k) : mapFind (mapSet m k v) k' = mapFind m k' := by
  induction m with
  | nil => simp [mapSet, mapFind, beq_iff_eq, Ne.symm h]
  | cons p m ih =>
      by_cases hp : p.1 = k
      · subst hp
        simp [mapSet, mapFind, beq_iff_eq, h, Ne.symm h]
      · simp only [mapSet, mapFind, beq_iff_eq, hp, if_false]
        by_cases hq : p.1 = k'
        · simp [hq]
        · simp [hq, ih]

theorem mapFind_eq_none_of_not_mem {α : Type} (m : List (Ident × α)) (k : Ident)
    (h : k ∉ m.map Prod.fst) : mapFind m k = none := by
  induction m with
  | nil => simp [mapFind]
  | cons p m ih =>
      simp only [List.map_cons, List.mem_cons, not_or] at h
      simp [mapFind, beq_iff_eq, Ne.symm h.1, ih h.2]

/-- JS `Map`s never hold duplicate keys; this is the corresponding invariant
of the association-list model. -/
def keysNodup {α : Type} (m : List (Ident × α)) : Prop :=
  (m.map Prod.fst).Nodup

theorem mapFind_mapDelete_self {α : Type} (m : List (Ident × α)) (k : Ident)
    (h : keysNodup m) : mapFind (mapDelete m k) k = none := by
  induction m with
  | nil => simp [mapDelete, mapFind]
  | cons p m ih =>
      simp only [keysNodup, List.map_cons, List.nodup_cons] at h
      by_cases hp : p.1 = k
      · subst hp
        simp only [mapDelete, beq_iff_eq, if_pos rfl]
        exact mapFind_eq_none_of_not_mem m p.1 h.1
      · simp [mapDelete, mapFind, beq_iff_eq, hp, ih h.2]

theorem get_singleton_cached (env : Env) (c : PrimitiveContainer) (id : Ident)
    (b : Binding) (flag : Bool) (hfind : mapFind c.registry id = some b)
    (hs : b.scope = Scope.singleton) (hr : b.reference.isNullish = false) :
    PrimitiveContainer.get env c id flag = (Except.ok b.reference, c, false) := by
  simp [PrimitiveContainer.get, hfind, hs, hr]

theorem get_singleton_fresh (env : Env) (c : PrimitiveContainer) (id : Ident)
    (b : Binding) (v : JSValue) (flag : Bool)
    (hfind : mapFind c.registry id = some b) (hs : b.scope = Scope.singleton)
    (hr : b.reference.isNullish = true) (hv : env b.providerId c = Except.ok v) :
    PrimitiveContainer.get env c id flag =
      (Except.ok v,
       { c with registry := mapSet c.registry id ⟨b.providerId, Scope.singleton, v⟩ },
       true) := by
  simp [PrimitiveContainer.get, hfind, hs, hr, hv]

theorem get_fresh_binding_invokes (env : Env) (c : PrimitiveContainer)
    (id : Ident) (pid : Nat) (scope : Scope)
    (hb : mapFind c.registry id = some ⟨pid, scope, JSValue.undef⟩) :
    (PrimitiveContainer.get env c id false).1 = env pid c
    ∧ (PrimitiveContainer.get env c id false).2.2 = true := by
  cases scope <;>
    rcases hv : env pid c with e | v <;>
      simp [PrimitiveContainer.get, hb, hv, JSValue.isNullish]

theorem countP_invoked_replicate (m : Nat) (x : Except DIError JSValue) :
    (List.replicate m (x, false)).countP (fun e => e.2) = 0 := by
  induction m with
  | zero => rfl
  | succ k ih => simp [List.replicate_succ, List.countP_cons, ih]

theorem getN_cached (env : Env) (c : PrimitiveContainer) (id : Ident)
    (b : Binding) (m : Nat) (hfind : mapFind c.registry id = some b)
    (hs : b.scope = Scope.singleton) (hr : b.reference.isNullish = false) :
    PrimitiveContainer.getN env c id m =
      (List.replicate m (Except.ok b.reference, false), c) := by
  induction m with
  | zero => simp [PrimitiveContainer.getN]
  | succ n ih =>
      simp [PrimitiveContainer.getN,
        get_singleton_cached env c id b false hfind hs hr, ih,
        List.replicate_succ]

/-! ### Claim C3 -/

/-- C3: for every `PrimitiveContainer` and every identifier with no binding,
`get(identifier)` raises an error carrying the offending identifier when
`doNotThrowIfNull` is false or absent, and returns the absent-value marker
(`undefined`) without raising when the flag is true. -/
theorem C3_not_found_behavior (env : Env) (c : PrimitiveContainer) (id : Ident)
    (h : mapFind c.registry id = none) :
    PrimitiveContainer.get env c id false
      = (Except.error (DIError.couldNotResolve id), c, false)
    ∧ PrimitiveContainer.get env c id true
      = (Except.ok JSValue.undef, c, false) := by
  constructor <;> simp [PrimitiveContainer.get, h]

theorem C3_not_found_behavior_witness :
    PrimitiveContainer.get (fun _ _ => Except.ok JSValue.null) {} "svc" false
      = (Except.error (DIError.couldNotResolve "svc"), {}, false)
    ∧ PrimitiveContainer.get (fun _ _ => Except.ok JSValue.null) {} "svc" true
      = (Except.ok JSValue.undef, {}, false) :=
  C3_not_found_behavior (fun _ _ => Except.ok JSValue.null) {} "svc" rfl

/-! ### Claim C4 -/

/-- C4: re-`bindTo` on an identifier whose singleton binding has already
cached an instance discards the cached instance together with the binding
record (the fresh record has `reference = undefined`), so the next `get`
invokes the newly supplied provider (its result is exactly what the new
provider yields on the rebound container, and the provider does run);
`unbind` likewise discards the cache with the binding. -/
theorem C4_rebind_discards_cache (env : Env) (c : PrimitiveContainer)
    (id : Ident) (b : Binding) (pid : Nat) (scope : Scope)
    (hfind : mapFind c.registry id = some b) (hs : b.scope = Scope.singleton)
    (hr : b.reference.isNullish = false) (hwf : keysNodup c.registry) :
    mapFind (c.bindTo id pid scope).registry id
      = some ⟨pid, scope, JSValue.undef⟩
    ∧ (PrimitiveContainer.get env (c.bindTo id pid scope) id false).1
        = env pid (c.bindTo id pid scope)
    ∧ (PrimitiveContainer.get env (c.bindTo id pid scope) id false).2.2 = true
    ∧ mapFind (c.unbind id).registry id = none := by
  have hb : mapFind (c.bindTo id pid scope).registry id
      = some ⟨pid, scope, JSValue.undef⟩ :=
    mapFind_mapSet_self c.registry id ⟨pid, scope, JSValue.undef⟩
  have hi := get_fresh_binding_invokes env (c.bindTo id pid scope) id pid scope hb
  exact ⟨hb, hi.1, hi.2, mapFind_mapDelete_self c.registry id hwf⟩

theorem C4_rebind_discards_cache_witness :
    mapFind
        ((PrimitiveContainer.bindTo
            { registry := [("svc", ⟨0, Scope.singleton, JSValue.num 7⟩)] }
            "svc" 1 Scope.singleton)).registry "svc"
      = some ⟨1, Scope.singleton, JSValue.undef⟩
    ∧ (PrimitiveContainer.get (fun pid _ => Except.ok (JSValue.num (pid + 10)))
          (PrimitiveContainer.bindTo
            { registry := [("svc", ⟨0, Scope.singleton, JSValue.num 7⟩)] }
            "svc" 1 Scope.singleton) "svc" false).1
        = (fun pid _ => Except.ok (JSValue.num (pid + 10))) 1
            (PrimitiveContainer.bindTo
              { registry := [("svc", ⟨0, Scope.singleton, JSValue.num 7⟩)] }
              "svc" 1 Scope.singleton)
    ∧ (PrimitiveContainer.get (fun pid _ => Except.ok (JSValue.num (pid + 10)))
          (PrimitiveContainer.bindTo
            { registry := [("svc", ⟨0, Scope.singleton, JSValue.num 7⟩)] }
            "svc" 1 Scope.singleton) "svc" false).2.2 = true
    ∧ mapFind
        ((PrimitiveContainer.unbind
            { registry := [("svc", ⟨0, Scope.singleton, JSValue.num 7⟩)] }
            "svc")).registry "svc" = none :=
  C4_rebind_discards_cache (fun pid _ => Except.ok (JSValue.num (pid + 10)))
    { registry := [("svc", ⟨0, Scope.singleton, JSValue.num 7⟩)] }
    "svc" ⟨0, Scope.singleton, JSValue.num 7⟩ 1 Scope.singleton
    rfl rfl rfl (by simp [keysNodup])

/-! ### Claim C1 -/

/-- Provider environment for the C1 counterexample: every provider returns
JS `null`. -/
def envC1cex : Env := fun _pid _c => Except.ok JSValue.null

/-- The C1 counterexample container: `"svc"` bound with singleton scope. -/
def containerC1cex : PrimitiveContainer :=
  PrimitiveContainer.bindTo {} "svc" 0 Scope.singleton

/-- C1 counterexample: a singleton-scoped provider returning `null` (a
perfectly legal provider result) is invoked on *both* of two `get` calls,
because the `??=` cache test treats the cached `null` as absent; so "the
provider is invoked at most once" fails as stated. -/
theorem C1_counterexample :
    (PrimitiveContainer.getN envC1cex containerC1cex "svc" 2).1.countP
        (fun e => e.2) = 2 := by
  decide

/-- C1 (amended): for every identifier bound with Singleton scope *whose
provider invocation yields a non-nullish value*, across N `get` calls the
provider is invoked at most once — on the first call, with the container
itself as context — the first invocation's result is stored in the binding's
cache, and all N calls return that identical cached value.  (The
counterexample forces the non-nullish proviso: a provider whose result is
`undefined` or `null` is re-invoked on every call.) -/
theorem C1_singleton_memoization (env : Env) (c : PrimitiveContainer)
    (id : Ident) (b : Binding) (v : JSValue) (n : Nat)
    (hfind : mapFind c.registry id = some b) (hs : b.scope = Scope.singleton)
    (hr : b.reference.isNullish = true) (hv : env b.providerId c = Except.ok v)
    (hnn : v.isNullish = false) :
    (PrimitiveContainer.getN env c id n).1.countP (fun e => e.2) ≤ 1
    ∧ (∀ e ∈ (PrimitiveContainer.getN env c id n).1, e.1 = Except.ok v)
    ∧ (1 ≤ n →
        (PrimitiveContainer.getN env c id n).1.head?
            = some (Except.ok v, true)
        ∧ mapFind (PrimitiveContainer.getN env c id n).2.registry id
            = some ⟨b.providerId, Scope.singleton, v⟩) := by
  cases n with
  | zero => simp [PrimitiveContainer.getN]
  | succ m =>
      have h1 := get_singleton_fresh env c id b v false hfind hs hr hv
      have hb2 : mapFind
          (mapSet c.registry id ⟨b.providerId, Scope.singleton, v⟩) id
          = some ⟨b.providerId, Scope.singleton, v⟩ :=
        mapFind_mapSet_self c.registry id _
      have h2 := getN_cached env
        { c with registry := mapSet c.registry id ⟨b.providerId, Scope.singleton, v⟩ }
        id ⟨b.providerId, Scope.singleton, v⟩ m hb2 rfl hnn
      refine ⟨?_, ?_, fun _ => ⟨?_, ?_⟩⟩ <;>
        simp only [PrimitiveContainer.getN, h1, h2]
      · simp [List.countP_cons, countP_invoked_replicate]
      · intro e he
        rcases List.mem_cons.mp he with h | h
        · simp [h]
        · have hrep := List.eq_of_mem_replicate h
          simp [hrep]
      · rfl
      · exact hb2

/-- Environment for the C1 witness: provider 0 yields a (non-nullish)
object. -/
def envC1wit : Env := fun _pid _c => Except.ok (JSValue.obj 99)

theorem C1_singleton_memoization_witness :
    (PrimitiveContainer.getN envC1wit containerC1cex "svc" 3).1.countP
        (fun e => e.2) ≤ 1
    ∧ (∀ e ∈ (PrimitiveContainer.getN envC1wit containerC1cex "svc" 3).1,
        e.1 = Except.ok (JSValue.obj 99))
    ∧ (1 ≤ 3 →
        (PrimitiveContainer.getN envC1wit containerC1cex "svc" 3).1.head?
            = some (Except.ok (JSValue.obj 99), true)
        ∧ mapFind
            (PrimitiveContainer.getN envC1wit containerC1cex "svc" 3).2.registry
            "svc" = some ⟨0, Scope.singleton, JSValue.obj 99⟩) :=
  C1_singleton_memoization envC1wit containerC1cex "svc"
    ⟨0, Scope.singleton, JSValue.undef⟩ (JSValue.obj 99) 3 rfl rfl rfl rfl rfl

/-! ### Claim C2 -/

/-- Provider environment for the C2 counterexample: provider 0 (the child's)
returns `null`, provider 1 (the parent's) returns `42`. -/
def envC2cex : Env := fun pid _c =>
  if pid = 0 then Except.ok JSValue.null else Except.ok (JSValue.num 42)

/-- C2 counterexample parent: binds `"X"` to provider 1. -/
def parentC2cex : PrimitiveContainer :=
  PrimitiveContainer.bindTo {} "X" 1 Scope.transient

/-- C2 counterexample child: binds `"X"` to provider 0 (which yields `null`),
on top of `parentC2cex`. -/
def childC2cex : ChildPrimitiveContainer :=
  ChildPrimitiveContainer.bindTo { own := {}, parent := some parentC2cex }
    "X" 0 Scope.transient

/-- C2 counterexample: the child has its own binding for `"X"` whose provider
yields `null`, yet `child.get("X", true)` returns the parent's `42` — the
child binding does *not* shadow the parent's, because the `??` fallback fires
on any nullish child resolution. -/
theorem C2_counterexample :
    mapFind childC2cex.own.registry "X"
        = some ⟨0, Scope.transient, JSValue.undef⟩
    ∧ envC2cex 0 childC2cex.own = Except.ok JSValue.null
    ∧ (ChildPrimitiveContainer.get envC2cex childC2cex "X" true).1
        = Except.ok (JSValue.num 42)
    ∧ (Except.ok (JSValue.num 42) : Except DIError JSValue)
        ≠ Except.ok JSValue.null := by
  refine ⟨rfl, rfl, rfl, by simp⟩

/-- C2 (amended): `ChildPrimitiveContainer.get` first resolves against the
child's own registry without throwing, then against the parent (if supplied)
without throwing; a child binding shadows the parent's *when the child's own
resolution yields a non-nullish value* (the counterexample forces this
proviso: a child resolution of `undefined`/`null` falls through to the
parent); the parent's own registry and parent reference are unaffected by
the child's `bindTo`/`unbind`; and if neither container has the identifier,
`get` fails with the not-found error carrying the identifier unless
`doNotThrowIfNull` is true, in which case it returns `undefined`. -/
theorem C2_child_override_and_fallback (env : Env)
    (c : ChildPrimitiveContainer) (id : Ident) (p : PrimitiveContainer)
    (v1 v2 : JSValue) (pid : Nat) (scope : Scope) :
    ((PrimitiveContainer.get env c.own id true).1 = Except.ok v1 →
      v1.isNullish = false →
      (ChildPrimitiveContainer.get env c id true).1 = Except.ok v1)
    ∧ ((PrimitiveContainer.get env c.own id true).1 = Except.ok v1 →
        v1.isNullish = true → c.parent = some p →
        (PrimitiveContainer.get env p id true).1 = Except.ok v2 →
        (ChildPrimitiveContainer.get env c id true).1 = Except.ok v2)
    ∧ ((c.bindTo id pid scope).parent = c.parent
        ∧ (c.unbind id).parent = c.parent)
    ∧ (mapFind c.own.registry id = none → c.parent = none →
        (ChildPrimitiveContainer.get env c id false).1
            = Except.error (DIError.notFound id)
        ∧ (ChildPrimitiveContainer.get env c id true).1
            = Except.ok JSValue.undef)
    ∧ (mapFind c.own.registry id = none → c.parent = some p →
        mapFind p.registry id = none →
        (ChildPrimitiveContainer.get env c id false).1
            = Except.error (DIError.notFound id)
        ∧ (ChildPrimitiveContainer.get env c id true).1
            = Except.ok JSValue.undef) := by
  refine ⟨?_, ?_, ⟨rfl, rfl⟩, ?_, ?_⟩
  · intro h hnn
    rcases hown : PrimitiveContainer.get env c.own id true with ⟨r1, own1, i1⟩
    rw [hown] at h
    simp only at h
    subst h
    simp [ChildPrimitiveContainer.get, hown, hnn]
  · intro h hn hcp hpar
    rcases hown : PrimitiveContainer.get env c.own id true with ⟨r1, own1, i1⟩
    rw [hown] at h
    simp only at h
    subst h
    rcases hpg : PrimitiveContainer.get env p id true with ⟨r2, p2, i2⟩
    rw [hpg] at hpar
    simp only at hpar
    subst hpar
    simp [ChildPrimitiveContainer.get, hown, hn, hcp, hpg]
  · intro hnone hcp
    have hog : PrimitiveContainer.get env c.own id true
        = (Except.ok JSValue.undef, c.own, false) := by
      simp [PrimitiveContainer.get, hnone]
    constructor <;> simp [ChildPrimitiveContainer.get, hog, hcp, JSValue.isNullish]
  · intro hnone hcp hpnone
    have hog : PrimitiveContainer.get env c.own id true
        = (Except.ok JSValue.undef, c.own, false) := by
      simp [PrimitiveContainer.get, hnone]
    have hpg : PrimitiveContainer.get env p id true
        = (Except.ok JSValue.undef, p, false) := by
      simp [PrimitiveContainer.get, hpnone]
    constructor <;>
      simp [ChildPrimitiveContainer.get, hog, hcp, hpg, JSValue.isNullish,
        JSValue.truthy]

/-! ### Claim C9 -/

/-- C9: for every `ChildPrimitiveContainer`, if `get` is called with
`doNotThrowIfNull` false and the binding chain resolves to a falsy value
(for example `0`, `""`, or `false` — what `get(id, true)` returns), `get`
throws the not-found error even though a binding for the identifier exists
in the child or the parent. -/
theorem C9_falsy_resolution_throws (env : Env) (c : ChildPrimitiveContainer)
    (id : Ident) (v : JSValue)
    (hres : (ChildPrimitiveContainer.get env c id true).1 = Except.ok v)
    (hfalsy : v.truthy = false)
    (hbound : mapFind c.own.registry id ≠ none
      ∨ ∃ p, c.parent = some p ∧ mapFind p.registry id ≠ none) :
    (ChildPrimitiveContainer.get env c id false).1
      = Except.error (DIError.notFound id) := by
  rcases hown : PrimitiveContainer.get env c.own id true with ⟨r1, own1, i1⟩
  cases r1 with
  | error e => simp [ChildPrimitiveContainer.get, hown] at hres
  | ok v1 =>
      by_cases hn : v1.isNullish
      · cases hcp : c.parent with
        | none => simp [ChildPrimitiveContainer.get, hown, hn, hcp]
        | some p =>
            rcases hpg : PrimitiveContainer.get env p id true with ⟨r2, p2, i2⟩
            cases r2 with
            | error e =>
                simp [ChildPrimitiveContainer.get, hown, hn, hcp, hpg] at hres
            | ok v2 =>
                have hv2 : v2 = v := by
                  simp [ChildPrimitiveContainer.get, hown, hn, hcp, hpg] at hres
                  exact hres
                subst hv2
                simp [ChildPrimitiveContainer.get, hown, hn, hcp, hpg, hfalsy]
      · have hv1 : v1 = v := by
          simp [ChildPrimitiveContainer.get, hown, hn] at hres
          exact hres
        subst hv1
        simp [ChildPrimitiveContainer.get, hown, hn, hfalsy]

/-- Environment for the C9 witness: the child's provider yields `0`, a
non-nullish falsy value. -/
def envC9wit : Env := fun _pid _c => Except.ok (JSValue.num 0)

/-- C9 witness child: own binding for `"x"`, no parent. -/
def childC9wit : ChildPrimitiveContainer :=
  ChildPrimitiveContainer.bindTo {} "x" 0 Scope.transient

theorem C9_falsy_resolution_throws_witness :
    (ChildPrimitiveContainer.get envC9wit childC9wit "x" false).1
      = Except.error (DIError.notFound "x") :=
  C9_falsy_resolution_throws envC9wit childC9wit "x" (JSValue.num 0)
    rfl (by decide) (Or.inl (by decide))

/-! ### Claim C5 -/

/-- C5: `PreProcessDependencyContainer.bind(identifier, options)` registers,
via the underlying `bindTo`, a composed provider that when invoked with
context first calls `resolveDependencies(context, meta)` if supplied and then
calls `provider(resolvedDependencies, context, meta)`, returning its result;
the provider receives the resolved dependencies exactly as produced (for the
ordered resolver `createAutoResolveDepsInOrder`, the same-order list of
`ctx.get` results); and the default scope of `bind` is Singleton while the
bare `bindTo` default is Transient. -/
theorem C5_preprocess_bind_composition {M : Type} (env : Env)
    (c ctx : PrimitiveContainer) (id : Ident) (pid : Nat) (o : BindOptions M)
    (rd : PrimitiveContainer → JSValue → Except DIError M) (deps : M)
    (o2 : BindOptions (List JSValue)) (env2 : Env)
    (ds : List (Ident × Bool)) (l : List JSValue) :
    (PreProcessDependencyContainer.bind c id pid o
        = PrimitiveContainer.bindTo c id pid (o.scope.getD Scope.singleton))
    ∧ (o.scope = none →
        mapFind (PreProcessDependencyContainer.bind c id pid o).registry id
          = some ⟨pid, Scope.singleton, JSValue.undef⟩)
    ∧ (mapFind (PrimitiveContainer.bindTo c id pid).registry id
        = some ⟨pid, Scope.transient, JSValue.undef⟩)
    ∧ (env pid = composedProvider o → o.resolveDependencies = some rd →
        rd ctx o.meta = Except.ok deps →
        env pid ctx = o.provider (some deps) ctx o.meta)
    ∧ (env pid = composedProvider o → o.resolveDependencies = none →
        env pid ctx = o.provider none ctx o.meta)
    ∧ (env pid = composedProvider o2 →
        o2.resolveDependencies = some (createAutoResolveDepsInOrder env2 ds) →
        ds.mapM (fun d => (PrimitiveContainer.get env2 ctx d.1 d.2).1)
          = Except.ok l →
        env pid ctx = o2.provider (some l) ctx o2.meta) := by
  refine ⟨rfl, ?_, mapFind_mapSet_self c.registry id _, ?_, ?_, ?_⟩
  · intro h
    simp only [PreProcessDependencyContainer.bind, h, Option.getD]
    exact mapFind_mapSet_self c.registry id _
  · intro he hrd hok
    rw [he]
    simp [composedProvider, hrd, hok, Except.bind]
  · intro he hrd
    rw [he]
    simp [composedProvider, hrd]
  · intro he hrd hok
    rw [he]
    have hok' : List.mapM.loop
        (fun d => (PrimitiveContainer.get env2 ctx d.1 d.2).1) ds []
        = Except.ok l := hok
    simp [composedProvider, hrd, createAutoResolveDepsInOrder, hok',
      Except.bind]

/-! ### Claim C6 -/

/-- C6: with a preferred variant name set (`useMocks` sets `"mock"`,
`useSubPlugin(name)` sets `name`), each `use(plugin)` call substitutes the
plugin's same-named auxiliary callback for its primary callback when it
exists, so the variant callback's bindings take effect; for plugins lacking
that variant, and for containers with no variant name set, the primary
callback takes effect. -/
theorem C6_variant_substitution (penv : PluginEnv) (c : BasicContainer)
    (p : Nat) (name : String) (v : BasicContainer → BasicContainer) :
    ((BasicContainer.useMocks c).currentSubpluginName = some "mock")
    ∧ ((BasicContainer.useSubPlugin c name).currentSubpluginName = some name)
    ∧ (c.currentSubpluginName = some name → name.isEmpty = false →
        (penv p).variants name = some v →
        BasicContainer.use penv c [p] = v c)
    ∧ (c.currentSubpluginName = some name → (penv p).variants name = none →
        BasicContainer.use penv c [p] = (penv p).primary c)
    ∧ (c.currentSubpluginName = none →
        BasicContainer.use penv c [p] = (penv p).primary c) := by
  refine ⟨rfl, rfl, ?_, ?_, ?_⟩
  · intro hc hne hv
    simp [BasicContainer.use, selectPluginCallback, hc, hne, hv]
  · intro hc hv
    by_cases hne : name.isEmpty <;>
      simp [BasicContainer.use, selectPluginCallback, hc, hne, hv]
  · intro hc
    simp [BasicContainer.use, selectPluginCallback, hc]

/-! ### Claim C7 -/

/-- C7: `applyPlugins(tags)` applies exactly the plugins indexed by the given
tags, in tag-array order, by delegating to `use` (so variant substitution
still applies); `applyPlugins()` applies every registered plugin in
registration order (`registerPlugin` appends new plugins to the pending
set); and identifiers not bound by any applied plugin stay unbound, so `get`
on them fails with the not-found error. -/
theorem C7_tagged_selective_application (penv : PluginEnv) (env : Env)
    (c : BasicContainer) (ts : List String) (plugins ps : List Nat)
    (j : Ident) (ptag : Nat) (tags : List String) :
    (ts.mapM (fun t => mapFind c.pluginsByTag t) = some plugins →
      BasicContainer.applyPlugins penv c (some ts)
        = Except.ok (BasicContainer.use penv c plugins))
    ∧ (BasicContainer.applyPlugins penv c none
        = Except.ok (BasicContainer.use penv c c.lazyPlugins))
    ∧ (ptag ∉ c.lazyPlugins →
        (c.registerPlugin ptag tags).lazyPlugins = c.lazyPlugins ++ [ptag])
    ∧ ((∀ f ∈ ps.map (selectPluginCallback penv c.currentSubpluginName),
          ∀ s : BasicContainer, mapFind s.core.registry j = none →
            mapFind (f s).core.registry j = none) →
        mapFind c.core.registry j = none →
        mapFind (BasicContainer.use penv c ps).core.registry j = none
        ∧ (BasicContainer.get env (BasicContainer.use penv c ps) j false).1
            = Except.error (DIError.couldNotResolve j)) := by
  refine ⟨?_, rfl, ?_, ?_⟩
  · intro h
    have h' : List.mapM.loop (fun t => mapFind c.pluginsByTag t) ts []
        = some plugins := h
    simp [BasicContainer.applyPlugins, h']
  · intro h
    simp [BasicContainer.registerPlugin, setAdd, h]
  · intro hpres hnone
    have key : ∀ (fs : List (BasicContainer → BasicContainer))
        (s : BasicContainer),
        (∀ f ∈ fs, ∀ s' : BasicContainer, mapFind s'.core.registry j = none →
          mapFind (f s').core.registry j = none) →
        mapFind s.core.registry j = none →
        mapFind (fs.foldl (fun a f => f a) s).core.registry j = none := by
      intro fs
      induction fs with
      | nil => intro s _ hs; simpa using hs
      | cons f t ih =>
          intro s hall hs
          simp only [List.foldl_cons]
          exact ih (f s) (fun g hg => hall g (List.mem_cons_of_mem f hg))
            (hall f (List.mem_cons_self f t) s hs)
    have habs : mapFind (BasicContainer.use penv c ps).core.registry j = none :=
      key (ps.map (selectPluginCallback penv c.currentSubpluginName)) c
        hpres hnone
    refine ⟨habs, ?_⟩
    simp [BasicContainer.get, PrimitiveContainer.get, habs]

/-! ### Store counting lemmas -/

theorem countP_fst_map_eq_zero (L : List Nat) (v : JSValue) (l : Nat)
    (h : l ∉ L) :
    (L.map (fun li => (li, v))).countP (fun e => e.1 == l) = 0 := by
  induction L with
  | nil => rfl
  | cons a t ih =>
      simp only [List.mem_cons, not_or] at h
      simp [List.countP_cons, ih h.2, beq_iff_eq, Ne.symm h.1]

theorem countP_fst_map_eq_one (L : List Nat) (v : JSValue) (l : Nat)
    (hnd : L.Nodup) (hmem : l ∈ L) :
    (L.map (fun li => (li, v))).countP (fun e => e.1 == l) = 1 := by
  induction L with
  | nil => cases hmem
  | cons a t ih =>
      rcases List.nodup_cons.mp hnd with ⟨ha, ht⟩
      rcases List.mem_cons.mp hmem with h | h
      · subst h
        simp [List.countP_cons, countP_fst_map_eq_zero t v l ha]
      · have hal : a ≠ l := fun he => ha (he ▸ h)
        simp [List.countP_cons, ih ht h, beq_iff_eq, hal]

theorem not_mem_erase_self (L : List Nat) (l : Nat) (hnd : L.Nodup) :
    l ∉ L.erase l := by
  induction L with
  | nil => simp
  | cons a t ih =>
      rcases List.nodup_cons.mp hnd with ⟨ha, ht⟩
      by_cases hal : a = l
      · subst hal
        simpa [List.erase_cons] using ha
      · simp only [List.erase_cons, beq_iff_eq, hal, if_false, List.mem_cons,
          not_or]
        exact ⟨Ne.symm hal, ih ht⟩

theorem setAdd_nodup (L : List Nat) (x : Nat) (h : L.Nodup) :
    (setAdd L x).Nodup := by
  by_cases hx : x ∈ L
  · simpa [setAdd, hx] using h
  · simp only [setAdd, hx, if_false]
    exact List.Nodup.append h (List.nodup_singleton x)
      (fun a ha hax => hx ((List.mem_singleton.mp hax) ▸ ha))

theorem mem_setAdd_self (L : List Nat) (x : Nat) : x ∈ setAdd L x := by
  by_cases hx : x ∈ L <;> simp [setAdd, hx]

theorem setAdd_of_mem (L : List Nat) (x : Nat) (h : x ∈ L) : setAdd L x = L := by
  simp [setAdd, h]

theorem map_fst_pair_map (L : List Nat) (v : JSValue) :
    (L.map (fun li => (li, v))).map Prod.fst = L := by
  induction L with
  | nil => rfl
  | cons a t ih => simp [ih]

/-! ### Claim C8 -/

/-- C8: `subscribe(listener)` without `emitCurrent` does not invoke the
listener immediately; `update(newValueOrUpdaterFn)` sets the new value
(either directly or by applying the updater to the previous value) and then
invokes each currently-subscribed listener exactly once, in subscription
order (subscription appends to the listener set), with the new value; after
`unsubscribe(listener)` — which is also what the cleanup function returned
by `subscribeWithCleanup` performs — that listener is not invoked by
subsequent updates. -/
theorem C8_store_notification (s : ObservableStore) (l : Nat)
    (u : JSValue ⊕ (JSValue → JSValue)) (w : JSValue) (g : JSValue → JSValue) :
    ((s.subscribe l false).2 = [])
    ∧ ((s.update (Sum.inl w)).1.value = w)
    ∧ ((s.update (Sum.inr g)).1.value = g s.value)
    ∧ ((s.update u).2
        = s.listeners.map (fun li => (li, (s.update u).1.value)))
    ∧ ((s.update u).2.map Prod.fst = s.listeners)
    ∧ (s.listeners.Nodup → l ∈ s.listeners →
        (s.update u).2.countP (fun e => e.1 == l) = 1)
    ∧ (l ∉ s.listeners →
        (s.subscribe l false).1.listeners = s.listeners ++ [l])
    ∧ ((s.subscribeWithCleanup l false).2 (s.subscribeWithCleanup l false).1.1
        = (s.subscribe l false).1.unsubscribe l)
    ∧ (s.listeners.Nodup →
        ((s.unsubscribe l).update u).2.countP (fun e => e.1 == l) = 0) := by
  refine ⟨rfl, rfl, rfl, rfl, ?_, ?_, ?_, rfl, ?_⟩
  · exact map_fst_pair_map s.listeners _
  · intro hnd hmem
    exact countP_fst_map_eq_one s.listeners _ l hnd hmem
  · intro hmem
    simp [ObservableStore.subscribe, setAdd, hmem]
  · intro hnd
    exact countP_fst_map_eq_zero _ _ l (not_mem_erase_self s.listeners l hnd)

/-! ### Claim C10 -/

/-- C10: subscribing the same listener more than once registers it only once
(the second `subscribe` leaves the store unchanged); a single `update`
invokes it exactly once regardless of repeated subscription; and a single
`unsubscribe` removes it entirely, so later updates never invoke it. -/
theorem C10_duplicate_subscription (s : ObservableStore) (l : Nat)
    (u : JSValue ⊕ (JSValue → JSValue)) (hnd : s.listeners.Nodup) :
    (((s.subscribe l false).1.subscribe l false).1 = (s.subscribe l false).1)
    ∧ ((((s.subscribe l false).1.subscribe l false).1.update u).2.countP
        (fun e => e.1 == l) = 1)
    ∧ (l ∉ (((s.subscribe l false).1.subscribe l false).1.unsubscribe l).listeners)
    ∧ ((((((s.subscribe l false).1.subscribe l false).1.unsubscribe l).update
        u).2.countP (fun e => e.1 == l)) = 0) := by
  have hdb : ((s.subscribe l false).1.subscribe l false).1
      = (s.subscribe l false).1 := by
    simp [ObservableStore.subscribe,
      setAdd_of_mem _ l (mem_setAdd_self s.listeners l)]
  have hnd1 : (setAdd s.listeners l).Nodup := setAdd_nodup s.listeners l hnd
  refine ⟨hdb, ?_, ?_, ?_⟩
  · rw [hdb]
    exact countP_fst_map_eq_one _ _ l hnd1 (mem_setAdd_self s.listeners l)
  · rw [hdb]
    exact not_mem_erase_self _ l hnd1
  · rw [hdb]
    exact countP_fst_map_eq_zero _ _ l (not_mem_erase_self _ l hnd1)

/-- C10 witness store: one pre-existing listener `7`, value `1`. -/
def storeC10wit : ObservableStore :=
  (ObservableStore.create (JSValue.num 1)).subscribe 7 false |>.1

theorem C10_duplicate_subscription_witness :
    (((storeC10wit.subscribe 5 false).1.subscribe 5 false).1
        = (storeC10wit.subscribe 5 false).1)
    ∧ ((((storeC10wit.subscribe 5 false).1.subscribe 5 false).1.update
          (Sum.inl (JSValue.num 2))).2.countP (fun e => e.1 == 5) = 1)
    ∧ (5 ∉ (((storeC10wit.subscribe 5 false).1.subscribe 5
          false).1.unsubscribe 5).listeners)
    ∧ ((((((storeC10wit.subscribe 5 false).1.subscribe 5
          false).1.unsubscribe 5).update (Sum.inl (JSValue.num 2))).2.countP
        (fun e => e.1 == 5)) = 0) :=
  C10_duplicate_subscription storeC10wit 5 (Sum.inl (JSValue.num 2))
    (by decide)

end DI
